import Mathlib

/-!
Shallow embedding of the `vigicrues` client library (Python) and proofs of
the specification claims about it.

The repository wraps two HTTP/JSON services:
  * a station-discovery catalog (`discovery.py`, class `DiscoveryClient`),
  * the operational flood-monitoring API (`vigicrues.py`, class
    `VigicruesClient`),
and a façade (`client.py`, class `Vigicrues`) combining the two.

Modelling conventions, applied uniformly:
  * Each operation is split into a `…_prepare` phase (argument guards,
    request construction, session guard — everything the Python code does
    before `session.get`) and a `…_process` phase (everything done to the
    decoded JSON response).  A `…_run` function composes them through a
    `fetch` oracle standing for the HTTP transport plus JSON decoding;
    "fails before issuing any network request" is expressed as: the
    `prepare` phase already returns the error, hence `run` returns it for
    every `fetch` oracle.
  * JSON response documents are embedded as structures whose fields are
    `Option`-typed: `none` stands for an absent key or a JSON `null`
    (the Python code reads them with `dict.get`, which conflates the two
    except where noted).
  * Python exception classes are mapped to `VcError` constructors per
    raise site: `ValueError` raised on caller arguments ↦ `invalidArgument`,
    `RuntimeError("Session is not initialized")` ↦ `preconditionError`,
    `aiohttp.ClientError` (transport / non-2xx) ↦ `httpError`,
    `ValueError` raised on response data and pydantic `ValidationError`
    ↦ `dataError`, uncaught `TypeError` ↦ `pythonError`.
  * Numeric values are embedded as `ℚ`; `datetime.fromisoformat` is kept
    abstract as the identity on its argument string (its rejection of
    malformed timestamp strings is not modelled — no claim depends on it);
    the fixed `pyproj` Lambert-93→WGS84 transformer is an external,
    statically-parameterized collaborator and is passed as an explicit
    function argument `transform : ℚ → ℚ → ℚ × ℚ` returning
    `(longitude, latitude)`, exactly as `TRANSFORMER.transform` does.
-/

deriving instance DecidableEq for Except

namespace Vigicrues

/-- Error taxonomy of the spec, one constructor per Python exception class
as raised by the code (see the mapping in the file header). -/
inductive VcError where
  | invalidArgument (msg : String)
  | preconditionError (msg : String)
  | httpError
  | dataError (msg : String)
  | pythonError (msg : String)
deriving DecidableEq, Repr

/-- An outbound HTTP GET request: url and query parameters, as built by the
Python code right before `session.get(url, params=params)`. -/
structure Request where
  url : String
  params : List (String × String)
deriving DecidableEq, Repr

/-- `VIGICRUES_BASE_URL` from `vigicrues.py`. -/
def VIGICRUES_BASE_URL : String := "https://www.vigicrues.gouv.fr/services"

/-- `DISCOVERY_BASE_URL` from `discovery.py`. -/
def DISCOVERY_BASE_URL : String :=
  "https://public.opendatasoft.com/api/explore/v2.1/catalog/datasets/referentiel-des-stations-du-reseau-vigicrues"

/-- `models.Station`: minimal identity record `{id, name}`. -/
structure Station where
  id : String
  name : String
deriving DecidableEq, Repr

/-! ## Discovery component (`discovery.py`) -/

/-- One result record of the catalog search response
(`{cdstationhydro, lbstationhydro, dtfermeturestationhydro?}`).
`none` = key absent or JSON null. -/
structure DiscoveryRecord where
  cdstationhydro : Option String
  lbstationhydro : Option String
  dtfermeturestationhydro : Option String
deriving DecidableEq, Repr

/-- The catalog search response body `{results: [...]}`. -/
structure DiscoveryResponse where
  results : Option (List DiscoveryRecord)
deriving DecidableEq, Repr

/-- `DiscoveryClient._process_station_result`: requires both identifier and
name fields (raises `ValueError("Invalid station data")` otherwise, before
anything else), then silently drops (returns `None` for) records whose
closure date is non-null, else builds the `Station`.

Note on field presence: the Python code checks key membership
(`"cdstationhydro" not in station_data`); a key present with JSON null
would pass that check and then fail pydantic validation of
`Station(id=None)` — also a `dataError` in the spec taxonomy, so the
`Option`-conflated embedding sends both to the same error. -/
def processStationResult (r : DiscoveryRecord) : Except VcError (Option Station) :=
  match r.cdstationhydro, r.lbstationhydro with
  | some id, some name =>
      if r.dtfermeturestationhydro.isSome then .ok none
      else .ok (some ⟨id, name⟩)
  | _, _ => .error (.dataError "Invalid station data")

/-- The list comprehension in `DiscoveryClient.search_stations`: process
each result in order, keep the non-`None` stations, abort the whole call on
the first raising record. -/
def processResults : List DiscoveryRecord → Except VcError (List Station)
  | [] => .ok []
  | r :: rs => do
      let s? ← processStationResult r
      let rest ← processResults rs
      match s? with
      | none => pure rest
      | some s => pure (s :: rest)

/-- `DiscoveryClient.search_stations`, phase before the network call:
empty-query guard, request construction, session guard — in source order. -/
def search_stations_prepare (query : String) (hasSession : Bool) :
    Except VcError Request :=
  if query = "" then .error (.invalidArgument "Query cannot be empty")
  else
    let params := [("where", "search(lbstationhydro, \"" ++ query ++ "\")"),
                   ("limit", "20"), ("offset", "0")]
    if !hasSession then .error (.preconditionError "Session is not initialized")
    else .ok ⟨DISCOVERY_BASE_URL ++ "/records", params⟩

/-- `DiscoveryClient.search_stations`, phase after the response is decoded.
(The `isinstance(data, dict)` guard is vacuous in this embedding, where the
response is already structured.) -/
def search_stations_process (data : DiscoveryResponse) :
    Except VcError (List Station) :=
  processResults (data.results.getD [])

/-- `DiscoveryClient.search_stations` end to end, with the transport as an
oracle. -/
def search_stations_run (query : String) (hasSession : Bool)
    (fetch : Request → Except VcError DiscoveryResponse) :
    Except VcError (List Station) := do
  let req ← search_stations_prepare query hasSession
  let data ← fetch req
  search_stations_process data

/-! ## Monitoring component (`vigicrues.py`) -/

/-- `models.Territory`. -/
structure Territory where
  id : String
  name : String
deriving DecidableEq, Repr

/-- `models.Troncon`. -/
structure Troncon where
  id : String
  name : String
deriving DecidableEq, Repr

/-- The historical-flood / related-station sub-lists are passed through as
opaque records without individual field validation; embedded as raw
key-value objects. -/
abbrev OpaqueRecord := List (String × String)

/-- `models.ObservationType`: water level (H) or flow rate (Q). -/
inductive ObservationType where
  | HEIGHT
  | FLOW
deriving DecidableEq, Repr

/-- `ObservationType(obs_type)`: the enum constructor from its string
value; `none` models the `ValueError` Python would raise for other
strings. -/
def ObservationType.ofString? : String → Option ObservationType
  | "H" => some .HEIGHT
  | "Q" => some .FLOW
  | _ => none

/-- `models.Observation`.  The timestamp is carried as the ISO string fed
to `datetime.fromisoformat` (kept abstract as the identity, see header). -/
structure Observation where
  timestamp : String
  value : ℚ
  type : ObservationType
  unit : String
deriving DecidableEq, Repr

/-- pydantic validation of `Observation(value=...)`: `value: float` is a
required field, a `None` value is a `ValidationError` (↦ `dataError`). -/
def mkObservation (ts : String) (v : Option ℚ) (ty : ObservationType)
    (unit : String) : Except VcError Observation :=
  match v with
  | some v => .ok ⟨ts, v, ty, unit⟩
  | none => .error (.dataError "validation error: value is required")

/-- `datetime.fromisoformat`, kept abstract as the identity on its argument
string; `fromisoformat(None)` is an uncaught `TypeError` in the code. -/
def fromisoformat : Option String → Except VcError String
  | some s => .ok s
  | none => .error (.pythonError "TypeError: fromisoformat argument must be str")

/-- One entry of the observation series
(`{DtObsHydro (ISO-8601 string), ResObsHydro (numeric)}`). -/
structure ObsEntry where
  DtObsHydro : Option String
  ResObsHydro : Option ℚ
deriving DecidableEq, Repr

/-- The `Serie` object of the observations response. -/
structure SerieData where
  ObssHydro : Option (List ObsEntry)
deriving DecidableEq, Repr

/-- The observations response body `{Serie: {ObssHydro: [...]}}`. -/
structure ObsResponse where
  Serie : Option SerieData
deriving DecidableEq, Repr

/-- `data.get("Serie", \x7b\x7d).get("ObssHydro", [])`. -/
def ObsResponse.observations (data : ObsResponse) : List ObsEntry :=
  match data.Serie with
  | none => []
  | some s => s.ObssHydro.getD []

/-- `VigicruesClient.get_latest_observations`, phase before the network
call: empty-station guard, obs-type guard, request construction, session
guard — in source order. -/
def get_latest_observations_prepare (station_id obs_type : String)
    (hasSession : Bool) : Except VcError Request :=
  if station_id = "" then .error (.invalidArgument "Station ID cannot be empty")
  else if obs_type ≠ "H" ∧ obs_type ≠ "Q" then
    .error (.invalidArgument "obs_type must be 'H' (height) or 'Q' (flow)")
  else
    let params := [("CdStationHydro", station_id), ("GrdSerie", obs_type),
                   ("FormatDate", "iso")]
    if !hasSession then .error (.preconditionError "Session is not initialized")
    else .ok ⟨VIGICRUES_BASE_URL ++ "/observations.json/index.php", params⟩

/-- `VigicruesClient.get_latest_observations`, phase after the response is
decoded: require a non-empty series, take the last entry
(`observations[-1]`), build the `Observation` with unit derived from
`obs_type` only. -/
def get_latest_observations_process (obs_type : String) (data : ObsResponse) :
    Except VcError Observation :=
  match data.observations.getLast? with
  | none => .error (.dataError "No observations found")
  | some latest => do
      let ts ← fromisoformat latest.DtObsHydro
      match ObservationType.ofString? obs_type with
      | some ty =>
          mkObservation ts latest.ResObsHydro ty
            (if obs_type = "H" then "m" else "m³/s")
      | none => .error (.dataError "invalid observation type value")

/-- `VigicruesClient.get_latest_observations` end to end. -/
def get_latest_observations_run (station_id obs_type : String)
    (hasSession : Bool) (fetch : Request → Except VcError ObsResponse) :
    Except VcError Observation := do
  let req ← get_latest_observations_prepare station_id obs_type hasSession
  let data ← fetch req
  get_latest_observations_process obs_type data

/-! ### Coordinate extraction (`VigicruesClient.extract_coordinates`) -/

/-- Numeric value of a digit run (most significant first). -/
def digitsVal (cs : List Char) : ℕ :=
  cs.foldl (fun a c => a * 10 + (c.toNat - 48)) 0

/-- Split a character list into its leading digit run and the rest. -/
def splitDigits (cs : List Char) : List Char × List Char :=
  (cs.takeWhile Char.isDigit, cs.dropWhile Char.isDigit)

/-- Strip surrounding whitespace from a character list (CPython `float`
strips whitespace around the literal). -/
def stripWs (cs : List Char) : List Char :=
  ((cs.dropWhile Char.isWhitespace).reverse.dropWhile Char.isWhitespace).reverse

/-- CPython `float(str)` for finite decimal literals: optional surrounding
whitespace, optional sign, digits with optional decimal point and optional
exponent part; `none` models the `ValueError` for non-numeric strings.
(Digit-group underscores and the `inf`/`infinity`/`nan` spellings accepted
by CPython are not modelled — no claim exercises them.) -/
def pyFloat? (s : String) : Option ℚ :=
  let cs := stripWs s.toList
  let signAndRest : Bool × List Char :=
    match cs with
    | '+' :: rest => (false, rest)
    | '-' :: rest => (true, rest)
    | _ => (false, cs)
  let (ip, rest₁) := splitDigits signAndRest.2
  let fracAndRest : List Char × List Char :=
    match rest₁ with
    | '.' :: rest => splitDigits rest
    | _ => ([], rest₁)
  let fp := fracAndRest.1
  let rest₂ := fracAndRest.2
  if ip = [] ∧ fp = [] then none
  else
    let mantissa : ℚ :=
      if fp = [] then (digitsVal ip : ℚ)
      else (digitsVal ip : ℚ) + (digitsVal fp : ℚ) / ((10 : ℚ) ^ fp.length)
    let signed : ℚ → ℚ := fun v => if signAndRest.1 then -v else v
    match rest₂ with
    | [] => some (signed mantissa)
    | e :: rest₃ =>
      if e = 'e' ∨ e = 'E' then
        let esignAndRest : Bool × List Char :=
          match rest₃ with
          | '+' :: r => (false, r)
          | '-' :: r => (true, r)
          | _ => (false, rest₃)
        let (ed, rest₄) := splitDigits esignAndRest.2
        if ed = [] ∨ rest₄ ≠ [] then none
        else
          let ex : ℤ := if esignAndRest.1 then -(digitsVal ed : ℤ) else (digitsVal ed : ℤ)
          some (signed (mantissa * (10 : ℚ) ^ ex))
      else none

/-- The `CoordStationHydro` sub-document
(`{CoordXStationHydro, CoordYStationHydro}`), both numeric-looking
strings. -/
structure CoordData where
  CoordXStationHydro : Option String
  CoordYStationHydro : Option String
deriving DecidableEq, Repr

/-- Python string truthiness of an optional string: `None` and `""` are
falsy. -/
def optStrFalsy : Option String → Bool
  | none => true
  | some s => s = ""

/-- `VigicruesClient.extract_coordinates`: reject absent/empty coordinate
strings (`ValueError: Missing coordinates…` ↦ `invalidArgument`), then
reject non-numeric strings (`ValueError: Invalid coordinate format…` ↦
`invalidArgument`), then apply the fixed Lambert-93→WGS84 transformer
(passed as `transform`, returning `(longitude, latitude)`) and return
`(latitude, longitude)`. -/
def extract_coordinates (transform : ℚ → ℚ → ℚ × ℚ) (coord_data : CoordData)
    (station_id : String) : Except VcError (ℚ × ℚ) :=
  let x_str := coord_data.CoordXStationHydro
  let y_str := coord_data.CoordYStationHydro
  if optStrFalsy x_str ∨ optStrFalsy y_str then
    .error (.invalidArgument ("Missing coordinates for station " ++ station_id))
  else
    match pyFloat? (x_str.getD ""), pyFloat? (y_str.getD "") with
    | some x, some y =>
        let lonlat := transform x y
        .ok (lonlat.2, lonlat.1)
    | _, _ =>
        .error (.invalidArgument
          ("Invalid coordinate format: " ++ x_str.getD "" ++ ", " ++ y_str.getD ""))

/-! ### Station details (`VigicruesClient.get_station_details`) -/

/-- `models.StationDetails` (pydantic): required string fields `name`,
`river`, `city`; optional `picture_url`, `commune_code`. -/
structure StationDetails where
  id : String
  name : String
  river : String
  city : String
  latitude : ℚ
  longitude : ℚ
  picture_url : Option String
  commune_code : Option String
  is_prediction_station : Bool
  has_height_data : Bool
  has_flow_data : Bool
  has_predictions : Bool
  historical_floods : List OpaqueRecord
  related_stations : List OpaqueRecord
deriving DecidableEq, Repr

/-- pydantic validation of `StationDetails(...)`: the required `str` fields
(`name`, `river`, `city`) must be non-null, else `ValidationError`
(↦ `dataError`). -/
def mkStationDetails (id : String) (name river city : Option String)
    (lat lon : ℚ) (picture_url commune_code : Option String)
    (is_pred hh hf hp : Bool) (hist rel : List OpaqueRecord) :
    Except VcError StationDetails :=
  match name, river, city with
  | some name, some river, some city =>
      .ok ⟨id, name, river, city, lat, lon, picture_url, commune_code,
           is_pred, hh, hf, hp, hist, rel⟩
  | _, _, _ => .error (.dataError "validation error: required field is null")

/-- The `VigilanceCrues` sub-document. -/
structure VigilanceData where
  Photo : Option String
  StationPrevision : Option Bool
  CruesHistoriques : Option (List OpaqueRecord)
  StationsBassin : Option (List OpaqueRecord)
deriving DecidableEq, Repr

/-- The station-detail response document. -/
structure StationDetailData where
  LbStationHydro : Option String
  LbCoursEau : Option String
  CdCommune : Option String
  VigilanceCrues : Option VigilanceData
  CoordStationHydro : Option CoordData
deriving DecidableEq, Repr

/-- `VigicruesClient.get_station_details`, phase before the network call. -/
def get_station_details_prepare (station_id : String) (hasSession : Bool) :
    Except VcError Request :=
  if station_id = "" then .error (.invalidArgument "Station ID cannot be empty")
  else
    let params := [("CdStationHydro", station_id)]
    if !hasSession then .error (.preconditionError "Session is not initialized")
    else .ok ⟨VIGICRUES_BASE_URL ++ "/station.json/index.php", params⟩

/-- `VigicruesClient.get_station_details`, phase after the response is
decoded: defaults for the nested sections, coordinate extraction, then the
field-by-field `StationDetails` construction — note `city` and
`commune_code` both read `data.get("CdCommune")`, and
`has_height_data` / `has_flow_data` are the literal `True`. -/
def get_station_details_process (transform : ℚ → ℚ → ℚ × ℚ)
    (station_id : String) (data : StationDetailData) :
    Except VcError StationDetails := do
  let station_data := data.VigilanceCrues.getD ⟨none, none, none, none⟩
  let coord_data := data.CoordStationHydro.getD ⟨none, none⟩
  let latlon ← extract_coordinates transform coord_data station_id
  mkStationDetails station_id data.LbStationHydro data.LbCoursEau data.CdCommune
    latlon.1 latlon.2 station_data.Photo data.CdCommune
    (station_data.StationPrevision.getD false)
    true true
    (station_data.StationPrevision.getD false)
    (station_data.CruesHistoriques.getD [])
    (station_data.StationsBassin.getD [])

/-- `VigicruesClient.get_station_details` end to end. -/
def get_station_details_run (transform : ℚ → ℚ → ℚ × ℚ) (station_id : String)
    (hasSession : Bool) (fetch : Request → Except VcError StationDetailData) :
    Except VcError StationDetails := do
  let req ← get_station_details_prepare station_id hasSession
  let data ← fetch req
  get_station_details_process transform station_id data

/-! ### Territory / troncon hierarchy operations -/

/-- A record of the territory-list response
(`{CdEntVigiCru, LbEntVigiCru}`). -/
structure TerritoryRecord where
  CdEntVigiCru : Option String
  LbEntVigiCru : Option String
deriving DecidableEq, Repr

/-- The territory-list response body. -/
structure TerritoriesResponse where
  ListEntVigiCru : Option (List TerritoryRecord)
deriving DecidableEq, Repr

/-- pydantic validation of `Territory(id=…, name=…)`: both `str` fields
required non-null. -/
def mkTerritory (id name : Option String) : Except VcError Territory :=
  match id, name with
  | some id, some name => .ok ⟨id, name⟩
  | _, _ => .error (.dataError "validation error: required field is null")

/-- `VigicruesClient.get_territories`, phase before the network call: only
the session guard. -/
def get_territories_prepare (hasSession : Bool) : Except VcError Request :=
  if !hasSession then .error (.preconditionError "Session is not initialized")
  else .ok ⟨VIGICRUES_BASE_URL ++ "/TerEntVigiCru.json", []⟩

/-- `VigicruesClient.get_territories`, phase after the response is decoded:
map each record's code/label pair to a `Territory`, no filtering. -/
def get_territories_process (data : TerritoriesResponse) :
    Except VcError (List Territory) :=
  (data.ListEntVigiCru.getD []).mapM fun r => mkTerritory r.CdEntVigiCru r.LbEntVigiCru

/-- `VigicruesClient.get_territories` end to end. -/
def get_territories_run (hasSession : Bool)
    (fetch : Request → Except VcError TerritoriesResponse) :
    Except VcError (List Territory) := do
  let req ← get_territories_prepare hasSession
  let data ← fetch req
  get_territories_process data

/-- A child record of the hierarchy responses
(`{CdEntVigiCruInferieur, LbEntVigiCruInferieur}`). -/
structure ChildRecord where
  CdEntVigiCruInferieur : Option String
  LbEntVigiCruInferieur : Option String
deriving DecidableEq, Repr

/-- A parent record of the hierarchy responses (`{aNMoinsUn: [...]}`). -/
structure HierarchyRecord where
  aNMoinsUn : Option (List ChildRecord)
deriving DecidableEq, Repr

/-- The hierarchy response body. -/
structure HierarchyResponse where
  ListEntVigiCru : Option (List HierarchyRecord)
deriving DecidableEq, Repr

/-- pydantic validation of `Troncon(id=…, name=…)`. -/
def mkTroncon (id name : Option String) : Except VcError Troncon :=
  match id, name with
  | some id, some name => .ok ⟨id, name⟩
  | _, _ => .error (.dataError "validation error: required field is null")

/-- pydantic validation of `Station(id=…, name=…)`. -/
def mkStation (id name : Option String) : Except VcError Station :=
  match id, name with
  | some id, some name => .ok ⟨id, name⟩
  | _, _ => .error (.dataError "validation error: required field is null")

/-- The flattened child list of a hierarchy response (the two nested `for`
loops in `get_troncons` / `get_troncon_stations`). -/
def HierarchyResponse.children (data : HierarchyResponse) : List ChildRecord :=
  (data.ListEntVigiCru.getD []).flatMap fun t => t.aNMoinsUn.getD []

/-- `VigicruesClient.get_troncons`, phase before the network call. -/
def get_troncons_prepare (territory_id : String) (hasSession : Bool) :
    Except VcError Request :=
  if territory_id = "" then .error (.invalidArgument "Territory ID cannot be empty")
  else
    let params := [("CdEntVigiCru", territory_id), ("TypEntVigiCru", "5")]
    if !hasSession then .error (.preconditionError "Session is not initialized")
    else .ok ⟨VIGICRUES_BASE_URL ++ "/v1.1/TerEntVigiCru.json", params⟩

/-- `VigicruesClient.get_troncons`, phase after the response is decoded. -/
def get_troncons_process (data : HierarchyResponse) :
    Except VcError (List Troncon) :=
  data.children.mapM fun c => mkTroncon c.CdEntVigiCruInferieur c.LbEntVigiCruInferieur

/-- `VigicruesClient.get_troncons` end to end. -/
def get_troncons_run (territory_id : String) (hasSession : Bool)
    (fetch : Request → Except VcError HierarchyResponse) :
    Except VcError (List Troncon) := do
  let req ← get_troncons_prepare territory_id hasSession
  let data ← fetch req
  get_troncons_process data

/-- `VigicruesClient.get_troncon_stations`, phase before the network
call. -/
def get_troncon_stations_prepare (troncon_id : String) (hasSession : Bool) :
    Except VcError Request :=
  if troncon_id = "" then .error (.invalidArgument "Troncon ID cannot be empty")
  else
    let params := [("CdEntVigiCru", troncon_id), ("TypEntVigiCru", "8")]
    if !hasSession then .error (.preconditionError "Session is not initialized")
    else .ok ⟨VIGICRUES_BASE_URL ++ "/v1.1/TronEntVigiCru.json", params⟩

/-- `VigicruesClient.get_troncon_stations`, phase after the response is
decoded. -/
def get_troncon_stations_process (data : HierarchyResponse) :
    Except VcError (List Station) :=
  data.children.mapM fun c => mkStation c.CdEntVigiCruInferieur c.LbEntVigiCruInferieur

/-- `VigicruesClient.get_troncon_stations` end to end. -/
def get_troncon_stations_run (troncon_id : String) (hasSession : Bool)
    (fetch : Request → Except VcError HierarchyResponse) :
    Except VcError (List Station) := do
  let req ← get_troncon_stations_prepare troncon_id hasSession
  let data ← fetch req
  get_troncon_stations_process data

/-! ## Façade (`client.py`, `Vigicrues.search_stations` with `check=True`) -/

/-- The validation loop of the façade's checked search: for each discovery
hit, fetch its details (the `fetchDetails` oracle stands for the whole
`get_station_details` call); an `aiohttp.ClientError` (↦ `httpError`) is
caught and the station silently skipped, any other error propagates, a
success appends the detail record. -/
def facade_upgrade (fetchDetails : String → Except VcError StationDetails) :
    List Station → Except VcError (List StationDetails)
  | [] => .ok []
  | s :: rest =>
    match fetchDetails s.id with
    | .error .httpError => facade_upgrade fetchDetails rest
    | .error e => .error e
    | .ok d => do
        let ds ← facade_upgrade fetchDetails rest
        pure (d :: ds)

/-- `Vigicrues.search_stations(query, check=True)`: the discovery search
followed by the best-effort detail upgrade. -/
def facade_search_stations_checked (query : String) (hasSession : Bool)
    (fetchSearch : Request → Except VcError DiscoveryResponse)
    (fetchDetails : String → Except VcError StationDetails) :
    Except VcError (List StationDetails) := do
  let stations ← search_stations_run query hasSession fetchSearch
  facade_upgrade fetchDetails stations

/-! ## Spec-side characterizations and helper lemmas -/

lemma exceptBind_ok {ε α β : Type} (a : α) (f : α → Except ε β) :
    (Except.ok a : Except ε α) >>= f = f a := rfl

lemma exceptBind_error {ε α β : Type} (e : ε) (f : α → Except ε β) :
    (Except.error e : Except ε α) >>= f = Except.error e := rfl

lemma exceptPure {ε α : Type} (a : α) : (pure a : Except ε α) = Except.ok a := rfl

/-- The claim's characterization of a surviving discovery record: a record
whose closure date is null or absent, mapped to its `Station` summary;
`none` for a dropped (or field-missing) record. -/
def activeStationSummary? (r : DiscoveryRecord) : Option Station :=
  match r.cdstationhydro, r.lbstationhydro with
  | some i, some n =>
      if r.dtfermeturestationhydro.isSome then none else some ⟨i, n⟩
  | _, _ => none

lemma processResults_ok_of_fields (records : List DiscoveryRecord)
    (h : ∀ r ∈ records, r.cdstationhydro.isSome ∧ r.lbstationhydro.isSome) :
    processResults records = .ok (records.filterMap activeStationSummary?) := by
  induction records with
  | nil => rfl
  | cons r rs ih =>
    obtain ⟨hc, hl⟩ := h r (by simp)
    obtain ⟨i, hi⟩ := Option.isSome_iff_exists.mp hc
    obtain ⟨n, hn⟩ := Option.isSome_iff_exists.mp hl
    have hrest := ih (fun x hx => h x (by simp [hx]))
    by_cases hd : r.dtfermeturestationhydro.isSome <;>
      simp [processResults, processStationResult, activeStationSummary?, hi, hn,
        hrest, hd, exceptBind_ok, exceptBind_error, exceptPure]

lemma processResults_error_of_missing (records : List DiscoveryRecord)
    (h : ∃ r ∈ records, r.cdstationhydro = none ∨ r.lbstationhydro = none) :
    processResults records = .error (.dataError "Invalid station data") := by
  induction records with
  | nil => simp at h
  | cons r rs ih =>
    obtain ⟨x, hx, hmiss⟩ := h
    rcases List.mem_cons.mp hx with rfl | hx'
    · rcases hmiss with hc | hl
      · simp [processResults, processStationResult, hc, exceptBind_ok, exceptBind_error, exceptPure]
      · cases hcd : x.cdstationhydro <;>
          simp [processResults, processStationResult, hcd, hl, exceptBind_ok, exceptBind_error, exceptPure]
    · cases hcd : r.cdstationhydro with
    | none => simp [processResults, processStationResult, hcd, exceptBind_ok, exceptBind_error, exceptPure]
    | some i =>
      cases hlb : r.lbstationhydro with
      | none => simp [processResults, processStationResult, hcd, hlb, exceptBind_ok, exceptBind_error, exceptPure]
      | some n =>
        have hrest := ih ⟨x, hx', hmiss⟩
        by_cases hd : r.dtfermeturestationhydro.isSome <;>
          simp [processResults, processStationResult, hcd, hlb, hd, hrest,
            exceptBind_ok, exceptBind_error, exceptPure]

/-- The detail record the façade keeps for one discovery hit: the fetched
`StationDetails` on success, nothing on failure. -/
def fetchedDetail? (fetchDetails : String → Except VcError StationDetails)
    (s : Station) : Option StationDetails :=
  match fetchDetails s.id with
  | .ok d => some d
  | .error _ => none

lemma facade_upgrade_eq_filterMap
    (fetchDetails : String → Except VcError StationDetails)
    (stations : List Station)
    (h : ∀ s ∈ stations,
      fetchDetails s.id = .error .httpError ∨ ∃ d, fetchDetails s.id = .ok d) :
    facade_upgrade fetchDetails stations
      = .ok (stations.filterMap (fetchedDetail? fetchDetails)) := by
  induction stations with
  | nil => rfl
  | cons s rest ih =>
    have hrest := ih (fun x hx => h x (by simp [hx]))
    rcases h s (by simp) with he | ⟨d, hd⟩
    · simp [facade_upgrade, he, hrest, fetchedDetail?]
    · simp [facade_upgrade, hd, hrest, fetchedDetail?, exceptBind_ok, exceptBind_error, exceptPure]

lemma mkStationDetails_ok (id : String) (name river city : Option String)
    (lat lon : ℚ) (pu cc : Option String) (ip hh hf hp : Bool)
    (hist rel : List OpaqueRecord) (sd : StationDetails)
    (h : mkStationDetails id name river city lat lon pu cc ip hh hf hp hist rel
      = .ok sd) :
    sd.id = id ∧ city = some sd.city ∧ sd.commune_code = cc ∧
      sd.has_height_data = hh ∧ sd.has_flow_data = hf := by
  cases name <;> cases river <;> cases city <;>
    simp [mkStationDetails] at h
  obtain rfl := h.symm
  simp

/-! ## Claim theorems -/

/-- C2: for every non-empty query, discovery search returns exactly the
result records whose closure date is null or absent, mapped to `Station`
summaries in upstream order; a record missing the identifier or the name
field makes the whole call fail with `DataError`; in particular one active
plus one closed station yields exactly one `Station`. -/
theorem search_stations_filter_spec (query : String) (hq : query ≠ "")
    (records : List DiscoveryRecord) :
    ((∀ r ∈ records, r.cdstationhydro.isSome ∧ r.lbstationhydro.isSome) →
      search_stations_run query true (fun _ => .ok ⟨some records⟩)
        = .ok (records.filterMap activeStationSummary?)) ∧
    ((∃ r ∈ records, r.cdstationhydro = none ∨ r.lbstationhydro = none) →
      search_stations_run query true (fun _ => .ok ⟨some records⟩)
        = .error (.dataError "Invalid station data")) ∧
    search_stations_run query true (fun _ => .ok
        ⟨some [⟨some "A1", some "Active", none⟩,
               ⟨some "C1", some "Closed", some "2020-01-01"⟩]⟩)
      = .ok [⟨"A1", "Active"⟩] := by
  refine ⟨fun h => ?_, fun h => ?_, ?_⟩
  · simp [search_stations_run, search_stations_prepare, hq,
      search_stations_process, exceptBind_ok,
      processResults_ok_of_fields records h]
  · simp [search_stations_run, search_stations_prepare, hq,
      search_stations_process, exceptBind_ok,
      processResults_error_of_missing records h]
  · simp [search_stations_run, search_stations_prepare, hq,
      search_stations_process, exceptBind_ok]
    decide

/-- C2 witness: the concrete one-active-one-closed round trip. -/
theorem search_stations_filter_spec_witness :
    search_stations_run "Toulouse" true (fun _ => .ok
        ⟨some [⟨some "A1", some "Active", none⟩,
               ⟨some "C1", some "Closed", some "2020-01-01"⟩]⟩)
      = .ok [⟨"A1", "Active"⟩] :=
  (search_stations_filter_spec "Toulouse" (by decide) []).2.2

/-- C10: in discovery search the required-field presence check runs before
the closure-date filter: a record with a non-null closure date but missing
the identifier or the name field makes the whole call fail instead of being
silently dropped. -/
theorem presence_check_before_closure_filter_spec
    (r : DiscoveryRecord) (hclosed : r.dtfermeturestationhydro.isSome)
    (hmiss : r.cdstationhydro = none ∨ r.lbstationhydro = none)
    (query : String) (hq : query ≠ "")
    (records : List DiscoveryRecord) (hr : r ∈ records) :
    processStationResult r = .error (.dataError "Invalid station data") ∧
    search_stations_run query true (fun _ => .ok ⟨some records⟩)
      = .error (.dataError "Invalid station data") := by
  constructor
  · rcases hmiss with hc | hl
    · simp [processStationResult, hc]
    · cases hcd : r.cdstationhydro <;> simp [processStationResult, hcd, hl]
  · simp [search_stations_run, search_stations_prepare, hq,
      search_stations_process, exceptBind_ok,
      processResults_error_of_missing records ⟨r, hr, hmiss⟩]

/-- C10 witness: a closed record missing its identifier fails the whole
search call. -/
theorem presence_check_before_closure_filter_spec_witness :
    processStationResult ⟨none, some "N", some "2020-01-01"⟩
      = .error (.dataError "Invalid station data") ∧
    search_stations_run "q" true
        (fun _ => .ok ⟨some [⟨none, some "N", some "2020-01-01"⟩]⟩)
      = .error (.dataError "Invalid station data") :=
  presence_check_before_closure_filter_spec ⟨none, some "N", some "2020-01-01"⟩
    (by decide) (Or.inl rfl) "q" (by decide)
    [⟨none, some "N", some "2020-01-01"⟩] (by decide)

/-- C3: in the façade's checked search, every discovery hit whose detail
fetch fails with `HttpError` is silently dropped (no exception propagates)
and every hit whose detail fetch succeeds contributes the fetched
`StationDetails` record in place of its summary, in discovery order. -/
theorem facade_checked_search_spec (query : String) (hasSession : Bool)
    (fetchSearch : Request → Except VcError DiscoveryResponse)
    (fetchDetails : String → Except VcError StationDetails)
    (stations : List Station)
    (hs : search_stations_run query hasSession fetchSearch = .ok stations)
    (hf : ∀ s ∈ stations,
      fetchDetails s.id = .error .httpError ∨ ∃ d, fetchDetails s.id = .ok d) :
    facade_search_stations_checked query hasSession fetchSearch fetchDetails
      = .ok (stations.filterMap (fetchedDetail? fetchDetails)) := by
  simp [facade_search_stations_checked, hs, exceptBind_ok,
    facade_upgrade_eq_filterMap fetchDetails stations hf]

/-- C3 witness: one discovery hit whose detail fetch raises `HttpError`
yields the empty list, with no exception propagated. -/
theorem facade_checked_search_spec_witness :
    facade_search_stations_checked "Toulouse" true
        (fun _ => .ok ⟨some [⟨some "A1", some "Active", none⟩]⟩)
        (fun _ => .error .httpError)
      = .ok [] := by
  have h := facade_checked_search_spec "Toulouse" true
    (fun _ => .ok ⟨some [⟨some "A1", some "Active", none⟩]⟩)
    (fun _ => .error .httpError) [⟨"A1", "Active"⟩]
    (by decide) (fun s _ => Or.inl rfl)
  simpa [fetchedDetail?] using h

/-- C1: for every station id and `obs_type ∈ {H, Q}`, an empty (or absent)
`Serie.ObssHydro` list makes `get_latest_observations` fail with the
`DataError` "No observations found"; a non-empty list yields exactly one
`Observation` whose timestamp and value come verbatim from the last entry
of the list (no sorting or timestamp comparison), with unit "m" for H and
"m³/s" for Q independent of the response content. -/
theorem latest_observations_last_entry_spec
    (station_id obs_type : String) (hid : station_id ≠ "")
    (hty : obs_type = "H" ∨ obs_type = "Q") (data : ObsResponse) :
    (data.observations = [] →
      get_latest_observations_run station_id obs_type true (fun _ => .ok data)
        = .error (.dataError "No observations found")) ∧
    (∀ pre e ts v, data.observations = pre ++ [e] →
      e.DtObsHydro = some ts → e.ResObsHydro = some v →
      get_latest_observations_run station_id obs_type true (fun _ => .ok data)
        = .ok ⟨ts, v, if obs_type = "H" then .HEIGHT else .FLOW,
               if obs_type = "H" then "m" else "m³/s"⟩) := by
  have hprep : ∀ req, get_latest_observations_prepare station_id obs_type true
      = .ok req →
      get_latest_observations_run station_id obs_type true (fun _ => .ok data)
        = get_latest_observations_process obs_type data := by
    intro req hr
    simp [get_latest_observations_run, hr, exceptBind_ok]
  have hpr : get_latest_observations_prepare station_id obs_type true
      = .ok ⟨VIGICRUES_BASE_URL ++ "/observations.json/index.php",
             [("CdStationHydro", station_id), ("GrdSerie", obs_type),
              ("FormatDate", "iso")]⟩ := by
    rcases hty with rfl | rfl <;> simp [get_latest_observations_prepare, hid]
  have hrun := hprep _ hpr
  constructor
  · intro hobs
    simp [hrun, get_latest_observations_process, hobs]
  · intro pre e ts v hobs hts hv
    rcases hty with rfl | rfl <;>
      simp [hrun, get_latest_observations_process, hobs,
        List.getLast?_append_cons, fromisoformat, hts, hv,
        ObservationType.ofString?, mkObservation, exceptBind_ok]

/-- C1 witness: a one-entry series for type H returns that entry verbatim
with unit "m". -/
theorem latest_observations_last_entry_spec_witness :
    get_latest_observations_run "X123" "H" true
        (fun _ => .ok ⟨some ⟨some [⟨some "2024-01-01T00:00:00", some 5⟩]⟩⟩)
      = .ok ⟨"2024-01-01T00:00:00", 5, .HEIGHT, "m"⟩ := by
  have h := (latest_observations_last_entry_spec "X123" "H" (by decide)
    (Or.inl rfl) ⟨some ⟨some [⟨some "2024-01-01T00:00:00", some 5⟩]⟩⟩).2
    [] ⟨some "2024-01-01T00:00:00", some 5⟩ "2024-01-01T00:00:00" 5
    (by decide) rfl rfl
  simpa using h

/-- C4: coordinate extraction fails with `InvalidArgument` citing the
missing-coordinates condition when either coordinate string is absent, null
or empty; fails with the invalid-format `InvalidArgument` when a present
non-empty coordinate string is not numeric; and for numeric inputs returns
the Lambert-93→WGS84 conversion as a `(latitude, longitude)` pair — the
external transformer returns `(longitude, latitude)` and the function swaps
it.  The closed conjuncts instantiate the source doctest inputs
(`567613`/`6325598`, `abc`, and the empty string). -/
theorem extract_coordinates_spec (transform : ℚ → ℚ → ℚ × ℚ)
    (coord_data : CoordData) (station_id : String) :
    ((optStrFalsy coord_data.CoordXStationHydro = true ∨
      optStrFalsy coord_data.CoordYStationHydro = true) →
      extract_coordinates transform coord_data station_id
        = .error (.invalidArgument
            ("Missing coordinates for station " ++ station_id))) ∧
    (∀ xs ys, coord_data.CoordXStationHydro = some xs →
      coord_data.CoordYStationHydro = some ys → xs ≠ "" → ys ≠ "" →
      (((pyFloat? xs = none ∨ pyFloat? ys = none) →
        extract_coordinates transform coord_data station_id
          = .error (.invalidArgument
              ("Invalid coordinate format: " ++ xs ++ ", " ++ ys))) ∧
      (∀ x y, pyFloat? xs = some x → pyFloat? ys = some y →
        extract_coordinates transform coord_data station_id
          = .ok ((transform x y).2, (transform x y).1)))) ∧
    extract_coordinates transform ⟨some "567613", some "6325598"⟩ station_id
      = .ok ((transform 567613 6325598).2, (transform 567613 6325598).1) ∧
    extract_coordinates transform ⟨some "abc", some "6325598"⟩ station_id
      = .error (.invalidArgument "Invalid coordinate format: abc, 6325598") ∧
    extract_coordinates transform ⟨some "", some "6325598"⟩ station_id
      = .error (.invalidArgument
          ("Missing coordinates for station " ++ station_id)) := by
  refine ⟨fun h => ?_, fun xs ys hxs hys hxe hye => ⟨fun h => ?_, fun x y hx hy => ?_⟩,
    ?_, ?_, ?_⟩
  · simp [extract_coordinates, h]
  · rcases h with h | h
    · simp [extract_coordinates, hxs, hys, optStrFalsy, hxe, hye, h]
    · cases hpx : pyFloat? xs <;>
        simp [extract_coordinates, hxs, hys, optStrFalsy, hxe, hye, h, hpx]
  · simp [extract_coordinates, hxs, hys, optStrFalsy, hxe, hye, hx, hy]
  · rfl
  · rfl
  · rfl

/-- C4 witness: the doctest coordinates go through the transformer (here
instantiated with an explicit function) and come back swapped into
`(latitude, longitude)`. -/
theorem extract_coordinates_spec_witness :
    extract_coordinates (fun x y => (x, y)) ⟨some "567613", some "6325598"⟩
        "O494101001" = .ok (6325598, 567613) ∧
    extract_coordinates (fun x y => (x, y)) ⟨some "abc", some "6325598"⟩
        "O494101001"
      = .error (.invalidArgument "Invalid coordinate format: abc, 6325598") ∧
    extract_coordinates (fun x y => (x, y)) ⟨some "", some "6325598"⟩
        "O494101001"
      = .error (.invalidArgument "Missing coordinates for station O494101001") := by
  have h := extract_coordinates_spec (fun x y => (x, y))
    ⟨some "567613", some "6325598"⟩ "O494101001"
  exact ⟨h.2.2.1, h.2.2.2.1, h.2.2.2.2⟩

/-- C5: every `StationDetails` record returned by `get_station_details` has
`has_height_data = true` and `has_flow_data = true`, regardless of response
content. -/
theorem station_details_hardcoded_flags_spec (transform : ℚ → ℚ → ℚ × ℚ)
    (station_id : String) (data : StationDetailData) (sd : StationDetails)
    (h : get_station_details_process transform station_id data = .ok sd) :
    sd.has_height_data = true ∧ sd.has_flow_data = true := by
  cases hx : extract_coordinates transform
      (data.CoordStationHydro.getD ⟨none, none⟩) station_id with
  | error e =>
      rw [get_station_details_process] at h
      rw [hx] at h
      simp [exceptBind_error] at h
  | ok latlon =>
      rw [get_station_details_process] at h
      rw [hx] at h
      rw [exceptBind_ok] at h
      have hmk := mkStationDetails_ok _ _ _ _ _ _ _ _ _ _ _ _ _ _ _ h
      exact ⟨hmk.2.2.2.1, hmk.2.2.2.2⟩

/-- C5 witness: a concrete successful detail fetch has both flags true. -/
theorem station_details_hardcoded_flags_spec_witness :
    (⟨"S", "N", "R", "31555", 2, 1, none, some "31555", false, true, true,
      false, [], []⟩ : StationDetails).has_height_data = true ∧
    (⟨"S", "N", "R", "31555", 2, 1, none, some "31555", false, true, true,
      false, [], []⟩ : StationDetails).has_flow_data = true :=
  station_details_hardcoded_flags_spec (fun x y => (x, y)) "S"
    ⟨some "N", some "R", some "31555", none, some ⟨some "1", some "2"⟩⟩
    ⟨"S", "N", "R", "31555", 2, 1, none, some "31555", false, true, true,
      false, [], []⟩ (by decide)

/-- C9: every `StationDetails` record returned by `get_station_details`
satisfies `commune_code = some city`: both fields are populated from the
same upstream `CdCommune` field, so `city` is never the commune's name. -/
theorem city_equals_commune_code_spec (transform : ℚ → ℚ → ℚ × ℚ)
    (station_id : String) (data : StationDetailData) (sd : StationDetails)
    (h : get_station_details_process transform station_id data = .ok sd) :
    sd.commune_code = some sd.city := by
  cases hx : extract_coordinates transform
      (data.CoordStationHydro.getD ⟨none, none⟩) station_id with
  | error e =>
      rw [get_station_details_process] at h
      rw [hx] at h
      simp [exceptBind_error] at h
  | ok latlon =>
      rw [get_station_details_process] at h
      rw [hx] at h
      rw [exceptBind_ok] at h
      have hmk := mkStationDetails_ok _ _ _ _ _ _ _ _ _ _ _ _ _ _ _ h
      rw [hmk.2.2.1, ← hmk.2.1]

/-- C9 witness: the concrete detail fetch of the C5 witness satisfies the
invariant. -/
theorem city_equals_commune_code_spec_witness :
    (⟨"S", "N", "R", "31555", 2, 1, none, some "31555", false, true, true,
      false, [], []⟩ : StationDetails).commune_code
      = some (⟨"S", "N", "R", "31555", 2, 1, none, some "31555", false, true,
          true, false, [], []⟩ : StationDetails).city :=
  city_equals_commune_code_spec (fun x y => (x, y)) "S"
    ⟨some "N", some "R", some "31555", none, some ⟨some "1", some "2"⟩⟩
    ⟨"S", "N", "R", "31555", 2, 1, none, some "31555", false, true, true,
      false, [], []⟩ (by decide)

/-- C6: every string-argument operation (discovery search, troncon listing,
troncon-station listing, station details, latest observations, and the
façade's checked search) called with an empty string fails with
`InvalidArgument` in its prepare phase — before the session check (the
error is the same for every session state) and before any network request
(the run result is the same for every fetch oracle). -/
theorem empty_argument_guard_spec (hasSession : Bool) :
    search_stations_prepare "" hasSession
      = .error (.invalidArgument "Query cannot be empty") ∧
    (∀ fetch, search_stations_run "" hasSession fetch
      = .error (.invalidArgument "Query cannot be empty")) ∧
    get_troncons_prepare "" hasSession
      = .error (.invalidArgument "Territory ID cannot be empty") ∧
    (∀ fetch, get_troncons_run "" hasSession fetch
      = .error (.invalidArgument "Territory ID cannot be empty")) ∧
    get_troncon_stations_prepare "" hasSession
      = .error (.invalidArgument "Troncon ID cannot be empty") ∧
    (∀ fetch, get_troncon_stations_run "" hasSession fetch
      = .error (.invalidArgument "Troncon ID cannot be empty")) ∧
    get_station_details_prepare "" hasSession
      = .error (.invalidArgument "Station ID cannot be empty") ∧
    (∀ transform fetch, get_station_details_run transform "" hasSession fetch
      = .error (.invalidArgument "Station ID cannot be empty")) ∧
    (∀ obs_type, get_latest_observations_prepare "" obs_type hasSession
      = .error (.invalidArgument "Station ID cannot be empty")) ∧
    (∀ obs_type fetch, get_latest_observations_run "" obs_type hasSession fetch
      = .error (.invalidArgument "Station ID cannot be empty")) ∧
    (∀ fetchSearch fetchDetails,
      facade_search_stations_checked "" hasSession fetchSearch fetchDetails
      = .error (.invalidArgument "Query cannot be empty")) :=
  ⟨rfl, fun _ => rfl, rfl, fun _ => rfl, rfl, fun _ => rfl, rfl,
   fun _ _ => rfl, fun _ => rfl, fun _ _ => rfl, fun _ _ => rfl⟩

/-- C6 witness: the empty query fails even with no session configured and a
fetch oracle that would answer. -/
theorem empty_argument_guard_spec_witness :
    search_stations_prepare "" false
      = .error (.invalidArgument "Query cannot be empty") ∧
    search_stations_run "" false (fun _ => .ok ⟨some []⟩)
      = .error (.invalidArgument "Query cannot be empty") :=
  ⟨(empty_argument_guard_spec false).1,
   (empty_argument_guard_spec false).2.1 (fun _ => .ok ⟨some []⟩)⟩

/-- C7: `get_latest_observations` called with a non-empty station id and an
`obs_type` outside `{"H", "Q"}` fails with the `InvalidArgument` whose
message names the allowed set (citing both 'H' and 'Q'), for every session
state and before any network call (every fetch oracle). -/
theorem obs_type_guard_spec (station_id obs_type : String)
    (hid : station_id ≠ "") (hty : obs_type ≠ "H" ∧ obs_type ≠ "Q")
    (hasSession : Bool) :
    get_latest_observations_prepare station_id obs_type hasSession
      = .error (.invalidArgument "obs_type must be 'H' (height) or 'Q' (flow)") ∧
    (∀ fetch, get_latest_observations_run station_id obs_type hasSession fetch
      = .error (.invalidArgument "obs_type must be 'H' (height) or 'Q' (flow)")) := by
  have hprep : get_latest_observations_prepare station_id obs_type hasSession
      = .error (.invalidArgument "obs_type must be 'H' (height) or 'Q' (flow)") := by
    simp [get_latest_observations_prepare, hid, hty.1, hty.2]
  exact ⟨hprep, fun fetch => by
    simp [get_latest_observations_run, hprep, exceptBind_error]⟩

/-- C7 witness: `obs_type = "Z"` is rejected with the enum-citing message
without consulting the network. -/
theorem obs_type_guard_spec_witness :
    get_latest_observations_run "X123" "Z" true (fun _ => .error .httpError)
      = .error (.invalidArgument "obs_type must be 'H' (height) or 'Q' (flow)") :=
  (obs_type_guard_spec "X123" "Z" (by decide) (by decide) true).2
    (fun _ => .error .httpError)

/-- C8: every operation of every client (discovery, monitoring, façade)
invoked with no transport session configured and otherwise valid arguments
fails with `PreconditionError` (a defined error, not a null-reference
crash) in its prepare phase, hence before any network request (every fetch
oracle gives the same run result). -/
theorem missing_session_guard_spec
    (query territory_id troncon_id station_id obs_type : String)
    (hq : query ≠ "") (ht : territory_id ≠ "") (htr : troncon_id ≠ "")
    (hs : station_id ≠ "") (hty : obs_type = "H" ∨ obs_type = "Q") :
    get_territories_prepare false
      = .error (.preconditionError "Session is not initialized") ∧
    (∀ fetch, get_territories_run false fetch
      = .error (.preconditionError "Session is not initialized")) ∧
    search_stations_prepare query false
      = .error (.preconditionError "Session is not initialized") ∧
    (∀ fetch, search_stations_run query false fetch
      = .error (.preconditionError "Session is not initialized")) ∧
    get_troncons_prepare territory_id false
      = .error (.preconditionError "Session is not initialized") ∧
    (∀ fetch, get_troncons_run territory_id false fetch
      = .error (.preconditionError "Session is not initialized")) ∧
    get_troncon_stations_prepare troncon_id false
      = .error (.preconditionError "Session is not initialized") ∧
    (∀ fetch, get_troncon_stations_run troncon_id false fetch
      = .error (.preconditionError "Session is not initialized")) ∧
    get_station_details_prepare station_id false
      = .error (.preconditionError "Session is not initialized") ∧
    (∀ transform fetch, get_station_details_run transform station_id false fetch
      = .error (.preconditionError "Session is not initialized")) ∧
    get_latest_observations_prepare station_id obs_type false
      = .error (.preconditionError "Session is not initialized") ∧
    (∀ fetch, get_latest_observations_run station_id obs_type false fetch
      = .error (.preconditionError "Session is not initialized")) ∧
    (∀ fetchSearch fetchDetails,
      facade_search_stations_checked query false fetchSearch fetchDetails
      = .error (.preconditionError "Session is not initialized")) := by
  have h1 : search_stations_prepare query false
      = .error (.preconditionError "Session is not initialized") := by
    simp [search_stations_prepare, hq]
  have h2 : get_troncons_prepare territory_id false
      = .error (.preconditionError "Session is not initialized") := by
    simp [get_troncons_prepare, ht]
  have h3 : get_troncon_stations_prepare troncon_id false
      = .error (.preconditionError "Session is not initialized") := by
    simp [get_troncon_stations_prepare, htr]
  have h4 : get_station_details_prepare station_id false
      = .error (.preconditionError "Session is not initialized") := by
    simp [get_station_details_prepare, hs]
  have h5 : get_latest_observations_prepare station_id obs_type false
      = .error (.preconditionError "Session is not initialized") := by
    rcases hty with rfl | rfl <;> simp [get_latest_observations_prepare, hs]
  refine ⟨rfl, fun fetch => rfl, h1,
    fun fetch => by simp [search_stations_run, h1, exceptBind_error], h2,
    fun fetch => by simp [get_troncons_run, h2, exceptBind_error], h3,
    fun fetch => by simp [get_troncon_stations_run, h3, exceptBind_error], h4,
    fun transform fetch => by
      simp [get_station_details_run, h4, exceptBind_error], h5,
    fun fetch => by simp [get_latest_observations_run, h5, exceptBind_error],
    fun fetchSearch fetchDetails => by
      simp [facade_search_stations_checked, search_stations_run, h1,
        exceptBind_error]⟩

/-- C8 witness: without a session all operations fail with the
precondition error, shown end to end for the territory list and the façade
checked search. -/
theorem missing_session_guard_spec_witness :
    get_territories_run false (fun _ => .ok ⟨some []⟩)
      = .error (.preconditionError "Session is not initialized") ∧
    facade_search_stations_checked "Toulouse" false (fun _ => .ok ⟨some []⟩)
        (fun _ => .error .httpError)
      = .error (.preconditionError "Session is not initialized") := by
  have h := missing_session_guard_spec "Toulouse" "T1" "TR1" "S1" "H"
    (by decide) (by decide) (by decide) (by decide) (Or.inl rfl)
  exact ⟨h.2.1 (fun _ => .ok ⟨some []⟩),
    h.2.2.2.2.2.2.2.2.2.2.2.2 (fun _ => .ok ⟨some []⟩)
      (fun _ => .error .httpError)⟩

end Vigicrues
